import Mathlib

/-!
Shallow embedding of the prisma-migrator orchestration core
(src/migrator.ts, src/utils.ts, src/types.ts).

External effects (the migration subprocess, the history-table query, the
filesystem, the raw SQL execution primitive) are modelled as fields of an
environment `Env`; each orchestration function additionally returns the list
of `Event`s it performed, so that statements about "what was executed, in
which order" and "which lookup path was taken" can be made precise.

JavaScript string primitives (`split(';')`, `trim()`, `endsWith`, the
default code-unit-lexicographic `sort()`) are modelled by structurally
recursive functions over the character list of a `String`, so that every
definition evaluates inside the kernel.
-/

deriving instance DecidableEq for Except

namespace PrismaMigrator

/-- JavaScript `s.split(';')`: every occurrence of `;` separates fragments;
empty fragments are kept; the empty string yields one empty fragment. -/
def splitSemis : List Char → List (List Char)
  | [] => [[]]
  | c :: cs =>
    match splitSemis cs with
    | [] => [[]]
    | f :: rest => if c = ';' then [] :: f :: rest else (c :: f) :: rest

/-- `String` form of `splitSemis`. -/
def jsSplitSemi (s : String) : List String :=
  (splitSemis s.data).map List.asString

/-- JavaScript `s.trim()`: strip leading and trailing whitespace. -/
def trimChars (cs : List Char) : List Char :=
  ((cs.dropWhile Char.isWhitespace).reverse.dropWhile Char.isWhitespace).reverse

/-- `String` form of `trimChars`. -/
def jsTrim (s : String) : String :=
  (trimChars s.data).asString

/-- JavaScript `s.endsWith(pat)`: exact case-sensitive suffix test. -/
def jsEndsWith (s pat : String) : Bool :=
  pat.data.isSuffixOf s.data

/-- Code-unit comparison of two character lists, as used by the JavaScript
default `sort()` comparator (`≤` in lexicographic order). -/
def lexLe : List Char → List Char → Bool
  | [], _ => true
  | _ :: _, [] => false
  | a :: as, b :: bs =>
    if a.toNat < b.toNat then true
    else if b.toNat < a.toNat then false
    else lexLe as bs

/-- `≤` on strings by code units. -/
def strLe (a b : String) : Bool := lexLe a.data b.data

/-- Insert an element into a list assumed sorted by `le`. -/
def insertBy {α : Type} (le : α → α → Bool) (x : α) : List α → List α
  | [] => [x]
  | y :: ys => if le x y then x :: y :: ys else y :: insertBy le x ys

/-- Stable insertion sort by the boolean relation `le` (ascending). -/
def sortBy {α : Type} (le : α → α → Bool) : List α → List α
  | [] => []
  | x :: xs => insertBy le x (sortBy le xs)

/-- A row of the `_prisma_migrations` history table, as declared by the
`FailedMigration` interface in src/types.ts.  Timestamps are modelled as
naturals; nullable columns as `Option`. -/
structure FailedMigration where
  id : String
  checksum : String
  finished_at : Option Nat
  migration_name : String
  logs : Option String
  rolled_back_at : Option Nat
  started_at : Nat
  applied_steps_count : Nat
deriving Repr, DecidableEq

/-- The `MigrationResult` interface of src/types.ts.  Optional fields are
`Option`; a field is "present" exactly when it is `some`. -/
structure MigrationResult where
  success : Bool
  error : Option String := none
  rolledBack : Option Bool := none
  rollbackError : Option String := none
deriving Repr, DecidableEq

/-- The anonymous `{ success: boolean; error?: string }` record returned by
`attemptRollback` and `attemptRollbackFromError` in src/migrator.ts. -/
structure RollbackResult where
  success : Bool
  error : Option String
deriving Repr, DecidableEq

/-- The error object thrown by `execSync`: a captured stderr stream (absent
when the invocation itself raised without output) and a message. -/
structure ExecError where
  stderr : Option String
  message : String
deriving Repr, DecidableEq

/-- Observable effects of one orchestration run, used to state trace
properties (which statements were executed, whether the directory scanner
or the per-migration locator was consulted). -/
inductive Event where
  | ranCommand : Event
  | queriedHistory : Event
  | scannedDirs : Event
  | locator : String → Event
  | fileRead : String → Event
  | execStmt : String → Event
deriving Repr, DecidableEq

/-- The external world as seen by one `migrate()` call: the outcome of
migrations-root discovery, of the `npx prisma migrate deploy` subprocess, of
the history query, and the filesystem / database primitives. -/
structure Env where
  findMigrationsDirResult : Except String String
  execCommand : Except ExecError String
  historyQuery : Except String (List FailedMigration)
  readdir : String → Except String (List String)
  readFileContent : String → Except String String
  dbExec : String → Except String Unit

/-- Node's `path.join` restricted to the two-argument form used here. -/
def pathJoin (a b : String) : String := a ++ "/" ++ b

/-- `getRollbackFile` of src/utils.ts: list `migrationsDir/migrationName`,
return the first entry ending in the exact suffix `rollback.sql`; `none` on
a read failure or when no entry matches. -/
def getRollbackFile (readdir : String → Except String (List String))
    (migrationName : String) (migrationsDir : String) : Option String :=
  let migrationDir := pathJoin migrationsDir migrationName
  match readdir migrationDir with
  | .error _ => none
  | .ok files =>
    match files.find? (fun f => jsEndsWith f "rollback.sql") with
    | some f => some (pathJoin migrationDir f)
    | none => none

/-- The statement list built by `executeSql` of src/utils.ts:
split on `;`, trim each fragment, drop empty fragments. -/
def sqlStatements (sql : String) : List String :=
  ((jsSplitSemi sql).map jsTrim).filter (fun s => decide (0 < s.length))

/-- Sequential execution of a statement list against the connection:
each statement is submitted in order; the first raising statement stops the
run with its error.  Also returns the submitted statements as events. -/
def execStmts (env : Env) : List String → Except String Unit × List Event
  | [] => (Except.ok (), [])
  | s :: rest =>
    match env.dbExec s with
    | .error e => (Except.error e, [Event.execStmt s])
    | .ok _ =>
      let r := execStmts env rest
      (r.1, Event.execStmt s :: r.2)

/-- `executeSql` of src/utils.ts. -/
def executeSql (env : Env) (sql : String) : Except String Unit × List Event :=
  execStmts env (sqlStatements sql)

/-- The regex `^\d{14}_` of `findRecentMigrationDirs`: the first fourteen
characters are ASCII digits and the fifteenth is an underscore. -/
def isMigrationId (name : String) : Bool :=
  decide ((name.data.take 14).length = 14)
    && (name.data.take 14).all Char.isDigit
    && decide (name.data[14]? = some ('_' : Char))

/-- `findRecentMigrationDirs` of src/migrator.ts: list the migrations root,
keep names matching `^\d{14}_`, `sort().reverse().slice(0, 3)`.  A `none`
directory models the field being unset (discovery failed before assignment);
`readdir` then raises and the catch returns `[]`. -/
def findRecentMigrationDirs (env : Env) (migrationsDir : Option String) : List String :=
  match migrationsDir with
  | none => []
  | some dir =>
    match env.readdir dir with
    | .error _ => []
    | .ok entries => ((sortBy strLe (entries.filter isMigrationId)).reverse).take 3

/-- Semantics of the raw query in `checkForFailedMigrations`:
`WHERE finished_at IS NULL ORDER BY started_at DESC LIMIT 1`. -/
def queryUnfinished (rows : List FailedMigration) : List FailedMigration :=
  (sortBy (fun a b : FailedMigration => decide (b.started_at ≤ a.started_at))
    (rows.filter (fun r => r.finished_at.isNone))).take 1

/-- `checkForFailedMigrations` of src/migrator.ts: the first row of the
query result, `none` when the query returns nothing or itself fails. -/
def checkForFailedMigrations (env : Env) : Option FailedMigration :=
  match env.historyQuery with
  | .error _ => none
  | .ok rows => (queryUnfinished rows).head?

/-- JavaScript `logs || dflt`: the default replaces both a null and an
empty-string `logs`. -/
def jsOrDefault (logs : Option String) (dflt : String) : String :=
  match logs with
  | some s => if s = "" then dflt else s
  | none => dflt

/-- `execError.stderr ? execError.stderr.toString() : execError.message`:
stderr is used when present and non-empty (JavaScript truthiness), otherwise
the error message. -/
def errorOutputOf (e : ExecError) : String :=
  match e.stderr with
  | some s => if s = "" then e.message else s
  | none => e.message

/-- `attemptRollback` of src/migrator.ts: locate the rollback file for the
given migration; on a lookup miss return the sentinel failure; otherwise
read and execute it, converting any raise into a failure result. -/
def attemptRollback (env : Env) (migrationsDir : String) (migrationName : String) :
    RollbackResult × List Event :=
  match getRollbackFile env.readdir migrationName migrationsDir with
  | none => (⟨false, some "No rollback.sql file found"⟩, [Event.locator migrationName])
  | some rollbackFile =>
    match env.readFileContent rollbackFile with
    | .error e => (⟨false, some e⟩, [Event.locator migrationName, Event.fileRead rollbackFile])
    | .ok rollbackSql =>
      let r := executeSql env rollbackSql
      match r.1 with
      | .ok _ =>
        (⟨true, none⟩, Event.locator migrationName :: Event.fileRead rollbackFile :: r.2)
      | .error e =>
        (⟨false, some e⟩, Event.locator migrationName :: Event.fileRead rollbackFile :: r.2)

/-- The candidate loop of `attemptRollbackFromError`: for each recent
migration directory ask the locator; run the first script found (a raise
during read or execution stops the loop with a failure result); the
sentinel failure when no candidate has a script. -/
def rollbackLoop (env : Env) (migrationsDir : String) :
    List String → RollbackResult × List Event
  | [] => (⟨false, some "No rollback files found"⟩, [])
  | name :: rest =>
    match getRollbackFile env.readdir name migrationsDir with
    | none =>
      let r := rollbackLoop env migrationsDir rest
      (r.1, Event.locator name :: r.2)
    | some rollbackFile =>
      match env.readFileContent rollbackFile with
      | .error e => (⟨false, some e⟩, [Event.locator name, Event.fileRead rollbackFile])
      | .ok rollbackSql =>
        let r := executeSql env rollbackSql
        match r.1 with
        | .ok _ =>
          (⟨true, none⟩, Event.locator name :: Event.fileRead rollbackFile :: r.2)
        | .error e =>
          (⟨false, some e⟩, Event.locator name :: Event.fileRead rollbackFile :: r.2)

/-- `attemptRollbackFromError` of src/migrator.ts.  When the migrations
directory was never assigned (`none`), `readdir(undefined)` raises inside
`findRecentMigrationDirs`, which therefore returns `[]` and the loop body
never runs. -/
def attemptRollbackFromError (env : Env) (migrationsDir : Option String) :
    RollbackResult × List Event :=
  match migrationsDir with
  | none => (⟨false, some "No rollback files found"⟩, [Event.scannedDirs])
  | some dir =>
    let r := rollbackLoop env dir (findRecentMigrationDirs env (some dir))
    (r.1, Event.scannedDirs :: r.2)

/-- `migrate` of src/migrator.ts.  The outer try/catch: the only raising
step it can still see is `initialize` (discovery), since the subprocess
raise is handled by the inner catch and the helpers catch their own
raises; every path returns a `MigrationResult`. -/
def migrate (env : Env) : MigrationResult × List Event :=
  match env.findMigrationsDirResult with
  | .error e =>
    let r := attemptRollbackFromError env none
    (⟨false, some e, some r.1.success, r.1.error⟩, r.2)
  | .ok migrationsDir =>
    match env.execCommand with
    | .error execError =>
      let r := attemptRollbackFromError env (some migrationsDir)
      (⟨false, some (errorOutputOf execError), some r.1.success, r.1.error⟩,
        Event.ranCommand :: r.2)
    | .ok _ =>
      match checkForFailedMigrations env with
      | some failedMigration =>
        let r := attemptRollback env migrationsDir failedMigration.migration_name
        (⟨false, some (jsOrDefault failedMigration.logs "Migration failed"),
            some r.1.success, r.1.error⟩,
          Event.ranCommand :: Event.queriedHistory :: r.2)
      | none => (⟨true, none, none, none⟩, [Event.ranCommand, Event.queriedHistory])

/-! Helper lemmas about the embedded operations. -/

theorem mem_insertBy {α : Type} (le : α → α → Bool) (x a : α) :
    ∀ l : List α, a ∈ insertBy le x l ↔ a = x ∨ a ∈ l := by
  intro l
  induction l with
  | nil => simp [insertBy]
  | cons y ys ih =>
    cases h : le x y with
    | true => simp [insertBy, h]
    | false =>
      simp only [insertBy, h, Bool.false_eq_true, if_false, List.mem_cons, ih]
      tauto

theorem mem_sortBy {α : Type} (le : α → α → Bool) (a : α) :
    ∀ l : List α, a ∈ sortBy le l ↔ a ∈ l := by
  intro l
  induction l with
  | nil => simp [sortBy]
  | cons x xs ih => simp [sortBy, mem_insertBy, ih]

theorem pairwise_insertBy {α : Type} (le : α → α → Bool)
    (total : ∀ a b, le a b = true ∨ le b a = true)
    (htrans : ∀ a b c, le a b = true → le b c = true → le a c = true)
    (x : α) : ∀ l : List α, List.Pairwise (fun a b => le a b = true) l →
      List.Pairwise (fun a b => le a b = true) (insertBy le x l) := by
  intro l
  induction l with
  | nil => intro _; simp [insertBy]
  | cons y ys ih =>
    intro hp
    rcases List.pairwise_cons.mp hp with ⟨hy, hys⟩
    cases h : le x y with
    | true =>
      simp only [insertBy, h, if_true]
      refine List.Pairwise.cons ?_ hp
      intro z hz
      rcases List.mem_cons.mp hz with rfl | hz
      · exact h
      · exact htrans x y z h (hy z hz)
    | false =>
      simp only [insertBy, h, Bool.false_eq_true, if_false]
      refine List.Pairwise.cons ?_ (ih hys)
      intro z hz
      rcases (mem_insertBy le x z ys).mp hz with hzx | hz
      · rw [hzx]
        rcases total x y with hxy | hyx
        · rw [hxy] at h; cases h
        · exact hyx
      · exact hy z hz

theorem pairwise_sortBy {α : Type} (le : α → α → Bool)
    (total : ∀ a b, le a b = true ∨ le b a = true)
    (htrans : ∀ a b c, le a b = true → le b c = true → le a c = true) :
    ∀ l : List α, List.Pairwise (fun a b => le a b = true) (sortBy le l) := by
  intro l
  induction l with
  | nil => simp [sortBy]
  | cons x xs ih => exact pairwise_insertBy le total htrans x _ ih

theorem lexLe_cons_iff (a b : Char) (as bs : List Char) :
    lexLe (a :: as) (b :: bs) = true ↔
      a.toNat < b.toNat ∨ (a.toNat = b.toNat ∧ lexLe as bs = true) := by
  simp only [lexLe]
  by_cases h1 : a.toNat < b.toNat
  · simp [h1]
  · by_cases h2 : b.toNat < a.toNat
    · rw [if_neg h1, if_pos h2]
      constructor
      · intro h; cases h
      · rintro (h | ⟨h, _⟩)
        · exact absurd h h1
        · exact absurd h (by omega)
    · have heq : a.toNat = b.toNat := by omega
      simp [h1, h2, heq]

theorem lexLe_total : ∀ as bs : List Char, lexLe as bs = true ∨ lexLe bs as = true
  | [], _ => Or.inl rfl
  | _ :: _, [] => Or.inr rfl
  | a :: as, b :: bs => by
    rcases Nat.lt_trichotomy a.toNat b.toNat with h | h | h
    · exact Or.inl ((lexLe_cons_iff a b as bs).mpr (Or.inl h))
    · rcases lexLe_total as bs with ih | ih
      · exact Or.inl ((lexLe_cons_iff a b as bs).mpr (Or.inr ⟨h, ih⟩))
      · exact Or.inr ((lexLe_cons_iff b a bs as).mpr (Or.inr ⟨h.symm, ih⟩))
    · exact Or.inr ((lexLe_cons_iff b a bs as).mpr (Or.inl h))

theorem lexLe_trans : ∀ as bs cs : List Char,
    lexLe as bs = true → lexLe bs cs = true → lexLe as cs = true := by
  intro as
  induction as with
  | nil => intro bs cs _ _; rfl
  | cons a as ih =>
    intro bs cs h1 h2
    cases bs with
    | nil => simp [lexLe] at h1
    | cons b bs =>
      cases cs with
      | nil => simp [lexLe] at h2
      | cons c cs =>
        rcases (lexLe_cons_iff a b as bs).mp h1 with hab | ⟨hab, h1t⟩ <;>
          rcases (lexLe_cons_iff b c bs cs).mp h2 with hbc | ⟨hbc, h2t⟩ <;>
          apply (lexLe_cons_iff a c as cs).mpr
        · exact Or.inl (by omega)
        · exact Or.inl (by omega)
        · exact Or.inl (by omega)
        · exact Or.inr ⟨by omega, ih bs cs h1t h2t⟩

theorem strLe_total (a b : String) : strLe a b = true ∨ strLe b a = true :=
  lexLe_total a.data b.data

theorem strLe_trans (a b c : String) :
    strLe a b = true → strLe b c = true → strLe a c = true :=
  lexLe_trans a.data b.data c.data

theorem mem_execStmts_events (env : Env) :
    ∀ (l : List String) (e : Event), e ∈ (execStmts env l).2 → ∃ s, e = Event.execStmt s := by
  intro l
  induction l with
  | nil => intro e he; simp [execStmts] at he
  | cons s rest ih =>
    intro e he
    simp only [execStmts] at he
    cases h : env.dbExec s with
    | error err =>
      rw [h] at he
      simp at he
      exact ⟨s, he⟩
    | ok u =>
      rw [h] at he
      simp only [List.mem_cons] at he
      rcases he with rfl | he
      · exact ⟨s, rfl⟩
      · exact ih e he

theorem execStmts_two (env : Env) (s1 s2 : String) (h1 : env.dbExec s1 = Except.ok ()) :
    (execStmts env [s1, s2]).2 = [Event.execStmt s1, Event.execStmt s2] := by
  cases h2 : env.dbExec s2 <;> simp [execStmts, h1, h2]

theorem execStmts_all_ok (env : Env) :
    ∀ l : List String, (∀ s ∈ l, env.dbExec s = Except.ok ()) →
      execStmts env l = (Except.ok (), l.map Event.execStmt) := by
  intro l
  induction l with
  | nil => intro _; rfl
  | cons s rest ih =>
    intro h
    have hs := h s (List.mem_cons_self s rest)
    simp only [execStmts, hs, ih fun t ht => h t (List.mem_cons_of_mem s ht), List.map_cons]

theorem attemptRollback_error_iff (env : Env) (d n : String) :
    ((attemptRollback env d n).1.error = none ↔ (attemptRollback env d n).1.success = true) := by
  unfold attemptRollback
  split
  · simp
  · split
    · simp
    · dsimp only
      split <;> simp

theorem rollbackLoop_error_iff (env : Env) (d : String) :
    ∀ names : List String,
      ((rollbackLoop env d names).1.error = none ↔ (rollbackLoop env d names).1.success = true) := by
  intro names
  induction names with
  | nil => simp [rollbackLoop]
  | cons n rest ih =>
    unfold rollbackLoop
    split
    · simpa using ih
    · split
      · simp
      · dsimp only
        split <;> simp

theorem attemptRollbackFromError_error_iff (env : Env) (d : Option String) :
    ((attemptRollbackFromError env d).1.error = none ↔
      (attemptRollbackFromError env d).1.success = true) := by
  cases d with
  | none => simp [attemptRollbackFromError]
  | some dir => simpa [attemptRollbackFromError] using rollbackLoop_error_iff env dir _

theorem scannedDirs_notMem_attemptRollback (env : Env) (d n : String) :
    Event.scannedDirs ∉ (attemptRollback env d n).2 := by
  unfold attemptRollback
  split
  · simp
  · split
    · simp
    · dsimp only
      split <;>
      · intro hmem
        simp only [List.mem_cons] at hmem
        rcases hmem with h | h | h
        · cases h
        · cases h
        · rcases mem_execStmts_events env _ _ h with ⟨s, hs⟩
          cases hs

theorem locator_mem_attemptRollback (env : Env) (d n : String) :
    Event.locator n ∈ (attemptRollback env d n).2 := by
  unfold attemptRollback
  split
  · simp
  · split
    · simp
    · dsimp only
      split <;> simp

theorem rollbackLoop_all_miss (env : Env) (d : String) :
    ∀ names : List String, (∀ n ∈ names, getRollbackFile env.readdir n d = none) →
      (rollbackLoop env d names).1 = ⟨false, some "No rollback files found"⟩ := by
  intro names
  induction names with
  | nil => intro _; rfl
  | cons n rest ih =>
    intro h
    simp only [rollbackLoop, h n (List.mem_cons_self n rest)]
    exact ih fun m hm => h m (List.mem_cons_of_mem n hm)

theorem filter_trim_blank :
    ∀ l : List String, (∀ f ∈ l, jsTrim f = "") →
      (l.map jsTrim).filter (fun s => decide (0 < s.length)) = [] := by
  intro l
  induction l with
  | nil => intro _; rfl
  | cons f rest ih =>
    intro h
    simp only [List.map_cons, List.filter_cons, h f (List.mem_cons_self f rest)]
    simpa using ih fun g hg => h g (List.mem_cons_of_mem f hg)

theorem sqlStatements_blank (sql : String)
    (h : ∀ f ∈ jsSplitSemi sql, jsTrim f = "") : sqlStatements sql = [] :=
  filter_trim_blank (jsSplitSemi sql) h

theorem queryUnfinished_all_finished (rows : List FailedMigration)
    (h : ∀ r ∈ rows, r.finished_at.isSome) : queryUnfinished rows = [] := by
  have hf : rows.filter (fun r => r.finished_at.isNone) = [] := by
    rw [List.filter_eq_nil_iff]
    intro r hr
    simp [Option.isNone_iff_eq_none]
    rcases Option.isSome_iff_exists.mp (h r hr) with ⟨v, hv⟩
    simp [hv]
  simp [queryUnfinished, hf, sortBy]

/-! Concrete environments used by witnesses and counterexamples. -/

/-- A run in which everything goes right: discovery finds `root`, the
subprocess exits cleanly, the history table is empty. -/
def baseEnv : Env where
  findMigrationsDirResult := Except.ok "root"
  execCommand := Except.ok "All migrations applied"
  historyQuery := Except.ok []
  readdir := fun _ => Except.error "ENOENT"
  readFileContent := fun _ => Except.error "ENOENT"
  dbExec := fun _ => Except.ok ()

/-- An unfinished history row: `finished_at` absent, diagnostic logs. -/
def fmStuck : FailedMigration where
  id := "1"
  checksum := "abc"
  finished_at := none
  migration_name := "20240105000000_add_col"
  logs := some "constraint violation"
  rolled_back_at := none
  started_at := 5
  applied_steps_count := 0

/-- Discovery fails before anything else runs. -/
def envDiscoveryFail : Env :=
  { baseEnv with
    findMigrationsDirResult := Except.error "Could not find Prisma migrations directory" }

/-- The subprocess fails; the scanner finds one candidate whose rollback
script raises during execution. -/
def envRollbackFail : Env :=
  { baseEnv with
    execCommand := Except.error ⟨some "P3009", "Command failed"⟩
    readdir := fun p =>
      if p = "root" then Except.ok ["20240101000000_a"]
      else if p = "root/20240101000000_a" then Except.ok ["x.rollback.sql"]
      else Except.error "ENOENT"
    readFileContent := fun p =>
      if p = "root/20240101000000_a/x.rollback.sql" then Except.ok "DROP TABLE t;"
      else Except.error "ENOENT"
    dbExec := fun _ => Except.error "boom" }

/-- The subprocess exits cleanly but history shows `fmStuck`; the stuck
migration's directory has no rollback file. -/
def envLookupMiss : Env :=
  { baseEnv with
    historyQuery := Except.ok [fmStuck]
    readdir := fun p =>
      if p = "root/20240105000000_add_col" then Except.ok ["migration.sql"]
      else Except.error "ENOENT" }

/-! The claims. -/

/-- C1, counterexample: in the run `envRollbackFail` the rollback attempt
fails, and the returned result carries `rolledBack: false` together with a
`rollbackError` — both optional fields are present in the same result,
refuting "rolledBack and rollbackError are never both present". -/
theorem c1_both_rollback_fields_present :
    (migrate envRollbackFail).1.rolledBack = some false
    ∧ (migrate envRollbackFail).1.rollbackError = some "boom"
    ∧ (migrate envRollbackFail).1.rolledBack.isSome = true
    ∧ (migrate envRollbackFail).1.rollbackError.isSome = true := by decide

/-- C1 (amended): every result of `migrate()` satisfies: exactly one of
`success = true` or `error` present holds; neither `rolledBack` nor
`rollbackError` is present unless `success` is false; on every failure
`rolledBack` is present, and `rollbackError` is present exactly when the
rollback attempt did not succeed — so `rolledBack = true` and a present
`rollbackError` are mutually exclusive, but `rolledBack = false` and
`rollbackError` do co-occur. -/
theorem c1_result_invariant (env : Env) :
    ((migrate env).1.success = true ↔ (migrate env).1.error = none)
    ∧ ((migrate env).1.success = true →
        (migrate env).1.rolledBack = none ∧ (migrate env).1.rollbackError = none)
    ∧ ((migrate env).1.success = false →
        ∃ b, (migrate env).1.rolledBack = some b
          ∧ ((migrate env).1.rollbackError = none ↔ b = true)) := by
  rcases hd : env.findMigrationsDirResult with e | dir
  · simp only [migrate, hd]
    refine ⟨by simp, by simp, fun _ => ?_⟩
    exact ⟨(attemptRollbackFromError env none).1.success, rfl,
      attemptRollbackFromError_error_iff env none⟩
  · rcases hc : env.execCommand with err | out
    · simp only [migrate, hd, hc]
      refine ⟨by simp, by simp, fun _ => ?_⟩
      exact ⟨(attemptRollbackFromError env (some dir)).1.success, rfl,
        attemptRollbackFromError_error_iff env (some dir)⟩
    · rcases hf : checkForFailedMigrations env with _ | fm
      · simp only [migrate, hd, hc, hf]
        exact ⟨by simp, by simp, by simp⟩
      · simp only [migrate, hd, hc, hf]
        refine ⟨by simp, by simp, fun _ => ?_⟩
        exact ⟨(attemptRollback env dir fm.migration_name).1.success, rfl,
          attemptRollback_error_iff env dir fm.migration_name⟩

/-- C1 witness: the invariant instantiated at the concrete failing run. -/
theorem c1_result_invariant_witness :
    ((migrate envRollbackFail).1.success = true ↔ (migrate envRollbackFail).1.error = none)
    ∧ ((migrate envRollbackFail).1.success = true →
        (migrate envRollbackFail).1.rolledBack = none
          ∧ (migrate envRollbackFail).1.rollbackError = none)
    ∧ ((migrate envRollbackFail).1.success = false →
        ∃ b, (migrate envRollbackFail).1.rolledBack = some b
          ∧ ((migrate envRollbackFail).1.rollbackError = none ↔ b = true)) :=
  c1_result_invariant envRollbackFail

/-- C2, counterexample: when discovery fails, `migrate()` does not raise —
it returns a structured result — and the fallback rollback path IS invoked
(the scanner runs and the result reports the rollback attempt's outcome),
refuting "discovery failures propagate as raised errors and no rollback is
attempted". -/
theorem c2_discovery_failure_is_caught :
    (migrate envDiscoveryFail).1 =
      ⟨false, some "Could not find Prisma migrations directory", some false,
        some "No rollback files found"⟩
    ∧ Event.scannedDirs ∈ (migrate envDiscoveryFail).2 := by decide

/-- C2 (amended): no failure escapes `migrate()` as a raised error,
including migrations-root discovery failures: a discovery failure is caught
by the outer handler and converted into a result carrying the discovery
message as `error`, and the fallback rollback path runs with the migrations
directory unset, so it scans nothing and reports the sentinel
"No rollback files found". -/
theorem c2_discovery_failure_result (env : Env) (e : String)
    (h : env.findMigrationsDirResult = Except.error e) :
    migrate env =
      (⟨false, some e, some false, some "No rollback files found"⟩, [Event.scannedDirs]) := by
  simp [migrate, h, attemptRollbackFromError]

/-- C2 witness. -/
theorem c2_discovery_failure_result_witness :
    migrate envDiscoveryFail =
      (⟨false, some "Could not find Prisma migrations directory", some false,
        some "No rollback files found"⟩, [Event.scannedDirs]) :=
  c2_discovery_failure_result envDiscoveryFail "Could not find Prisma migrations directory" rfl

/-- C3, counterexample: a failure run in which no rollback script exists for
the identified migration returns `rolledBack: false` but with
`rollbackError` PRESENT (the sentinel "No rollback.sql file found"),
refuting "rollbackError absent on a lookup miss". -/
theorem c3_lookup_miss_sets_rollbackError :
    checkForFailedMigrations envLookupMiss = some fmStuck
    ∧ getRollbackFile envLookupMiss.readdir fmStuck.migration_name "root" = none
    ∧ (migrate envLookupMiss).1.rolledBack = some false
    ∧ (migrate envLookupMiss).1.rollbackError.isSome = true := by decide

/-- C3 (amended): on a rollback-lookup miss no exception is raised and the
result has `rolledBack: false`, but `rollbackError` is present with a
sentinel message: "No rollback.sql file found" on the targeted
(history-identified) path, "No rollback files found" on the scanning path;
callers distinguish "nothing to roll back" by these sentinel texts, not by
the absence of `rollbackError`. -/
theorem c3_lookup_miss_result (env : Env) (dir : String)
    (hd : env.findMigrationsDirResult = Except.ok dir) :
    (∀ fm, (∃ s, env.execCommand = Except.ok s) →
      checkForFailedMigrations env = some fm →
      getRollbackFile env.readdir fm.migration_name dir = none →
      (migrate env).1.rolledBack = some false
        ∧ (migrate env).1.rollbackError = some "No rollback.sql file found")
    ∧ (∀ err, env.execCommand = Except.error err →
      (∀ n ∈ findRecentMigrationDirs env (some dir),
        getRollbackFile env.readdir n dir = none) →
      (migrate env).1.rolledBack = some false
        ∧ (migrate env).1.rollbackError = some "No rollback files found") := by
  constructor
  · rintro fm ⟨s, hc⟩ hf hmiss
    simp [migrate, hd, hc, hf, attemptRollback, hmiss]
  · intro err hc hmiss
    have hloop := rollbackLoop_all_miss env dir _ hmiss
    simp [migrate, hd, hc, attemptRollbackFromError, hloop]

/-- C3 witness: the targeted path at the concrete lookup-miss run. -/
theorem c3_lookup_miss_result_witness :
    (migrate envLookupMiss).1.rolledBack = some false
    ∧ (migrate envLookupMiss).1.rollbackError = some "No rollback.sql file found" :=
  (c3_lookup_miss_result envLookupMiss "root" rfl).1 fmStuck
    ⟨"All migrations applied", rfl⟩ (by decide) (by decide)

/-- C4: when the subprocess succeeds and no history row has `finished_at`
absent, `migrate()` returns exactly `{success: true}` — no `error`, no
`rolledBack`, no `rollbackError`. -/
theorem c4_clean_run_success (env : Env) (dir out : String) (rows : List FailedMigration)
    (hd : env.findMigrationsDirResult = Except.ok dir)
    (hc : env.execCommand = Except.ok out)
    (hq : env.historyQuery = Except.ok rows)
    (hfin : ∀ r ∈ rows, r.finished_at.isSome) :
    migrate env = (⟨true, none, none, none⟩, [Event.ranCommand, Event.queriedHistory]) := by
  have hnone : checkForFailedMigrations env = none := by
    simp [checkForFailedMigrations, hq, queryUnfinished_all_finished rows hfin]
  simp [migrate, hd, hc, hnone]

/-- C4 witness: the clean run. -/
theorem c4_clean_run_success_witness :
    migrate baseEnv = (⟨true, none, none, none⟩, [Event.ranCommand, Event.queriedHistory]) :=
  c4_clean_run_success baseEnv "root" "All migrations applied" [] rfl rfl rfl (by simp)

/-- The stuck row again, but with `logs` present and empty. -/
def fmEmptyLogs : FailedMigration := { fmStuck with logs := some "" }

/-- Subprocess exits cleanly; history shows `fmEmptyLogs`; its directory
holds a rollback script that runs cleanly. -/
def envEmptyLogs : Env :=
  { baseEnv with
    historyQuery := Except.ok [fmEmptyLogs]
    readdir := fun p =>
      if p = "root/20240105000000_add_col" then Except.ok ["rollback.sql"]
      else Except.error "ENOENT"
    readFileContent := fun p =>
      if p = "root/20240105000000_add_col/rollback.sql" then Except.ok "DROP TABLE t;"
      else Except.error "ENOENT" }

/-- C5, counterexample: when the unfinished record's `logs` field is present
but empty, `migrate()` reports the default message, not the record's `logs`
value — "error equal to that record's logs field (or a default when logs is
absent)" fails at `logs = some ""`. -/
theorem c5_empty_logs_replaced_by_default :
    checkForFailedMigrations envEmptyLogs = some fmEmptyLogs
    ∧ fmEmptyLogs.logs = some ""
    ∧ (migrate envEmptyLogs).1.error = some "Migration failed"
    ∧ (migrate envEmptyLogs).1.error ≠ fmEmptyLogs.logs := by decide

/-- C5 (amended): when the command returns successfully but the inspector
finds an unfinished record, `migrate()` returns success false with `error`
equal to the record's `logs` when logs is present and non-empty, and the
default "Migration failed" when logs is absent OR empty; the rollback
targets exactly that record's `migration_name` through the locator, without
the scanning fallback; and if the located script runs cleanly the result
has `rolledBack: true` and no `rollbackError`. -/
theorem c5_unfinished_history_path (env : Env) (dir out : String) (fm : FailedMigration)
    (hd : env.findMigrationsDirResult = Except.ok dir)
    (hc : env.execCommand = Except.ok out)
    (hf : checkForFailedMigrations env = some fm) :
    (migrate env).1.success = false
    ∧ (migrate env).1.error = some (jsOrDefault fm.logs "Migration failed")
    ∧ Event.scannedDirs ∉ (migrate env).2
    ∧ Event.locator fm.migration_name ∈ (migrate env).2
    ∧ (∀ f sql, getRollbackFile env.readdir fm.migration_name dir = some f →
        env.readFileContent f = Except.ok sql →
        (∀ st ∈ sqlStatements sql, env.dbExec st = Except.ok ()) →
        (migrate env).1.rolledBack = some true ∧ (migrate env).1.rollbackError = none) := by
  simp only [migrate, hd, hc, hf]
  refine ⟨by trivial, by trivial, ?_, ?_, ?_⟩
  · intro hmem
    simp only [List.mem_cons] at hmem
    rcases hmem with h | h | h
    · cases h
    · cases h
    · exact scannedDirs_notMem_attemptRollback env dir fm.migration_name h
  · exact List.mem_cons_of_mem _
      (List.mem_cons_of_mem _ (locator_mem_attemptRollback env dir fm.migration_name))
  · intro f sql hloc hread hok
    have hex : executeSql env sql = (Except.ok (), (sqlStatements sql).map Event.execStmt) :=
      execStmts_all_ok env _ hok
    simp [attemptRollback, hloc, hread, hex]

/-- C5 witness: the amended claim at the concrete empty-logs run. -/
theorem c5_unfinished_history_path_witness :
    (migrate envEmptyLogs).1.success = false
    ∧ (migrate envEmptyLogs).1.error = some (jsOrDefault fmEmptyLogs.logs "Migration failed") :=
  ⟨(c5_unfinished_history_path envEmptyLogs "root" "All migrations applied" fmEmptyLogs
      rfl rfl (by decide)).1,
    (c5_unfinished_history_path envEmptyLogs "root" "All migrations applied" fmEmptyLogs
      rfl rfl (by decide)).2.1⟩

/-- The history query itself fails (e.g. no history table yet). -/
def envHistoryFail : Env :=
  { baseEnv with historyQuery := Except.error "relation _prisma_migrations does not exist" }

/-- C6: the inspector returns absent both when no unfinished row exists and
when the history query itself fails; a query failure never propagates and,
after a clean command run, never replaces the success result. -/
theorem c6_history_inspector_absorbs_failures (env : Env) :
    (∀ e, env.historyQuery = Except.error e → checkForFailedMigrations env = none)
    ∧ (∀ rows, env.historyQuery = Except.ok rows →
        (∀ r ∈ rows, r.finished_at.isSome) → checkForFailedMigrations env = none)
    ∧ (∀ dir out e, env.findMigrationsDirResult = Except.ok dir →
        env.execCommand = Except.ok out → env.historyQuery = Except.error e →
        migrate env = (⟨true, none, none, none⟩, [Event.ranCommand, Event.queriedHistory])) := by
  refine ⟨?_, ?_, ?_⟩
  · intro e he
    simp [checkForFailedMigrations, he]
  · intro rows hq hfin
    simp [checkForFailedMigrations, hq, queryUnfinished_all_finished rows hfin]
  · intro dir out e hd hc he
    have hnone : checkForFailedMigrations env = none := by simp [checkForFailedMigrations, he]
    simp [migrate, hd, hc, hnone]

/-- C6 witness: a failing history query at the concrete run. -/
theorem c6_history_inspector_absorbs_failures_witness :
    checkForFailedMigrations envHistoryFail = none
    ∧ migrate envHistoryFail =
        (⟨true, none, none, none⟩, [Event.ranCommand, Event.queriedHistory]) :=
  ⟨(c6_history_inspector_absorbs_failures envHistoryFail).1
      "relation _prisma_migrations does not exist" rfl,
    (c6_history_inspector_absorbs_failures envHistoryFail).2.2
      "root" "All migrations applied" "relation _prisma_migrations does not exist"
      rfl rfl rfl⟩

/-- C7: against a connection on which no statement raises, the executor
submits exactly the non-empty trimmed `;`-fragments, sequentially in source
order; on the two-statement script both statements run in order (the first
conjunct needs only the FIRST statement to succeed, so the second runs even
if malformed); on the blanks-and-one-statement script only `DROP TABLE x`
runs. -/
theorem c7_executor_statements (env : Env) (hok : ∀ s, env.dbExec s = Except.ok ()) :
    (∀ sql, (executeSql env sql).2 = (sqlStatements sql).map Event.execStmt
      ∧ (executeSql env sql).1 = Except.ok ())
    ∧ (∀ env2 : Env, env2.dbExec "CREATE TABLE a (x int)" = Except.ok () →
        (executeSql env2 "CREATE TABLE a (x int); CREATE TABLE b (x int);").2 =
          [Event.execStmt "CREATE TABLE a (x int)", Event.execStmt "CREATE TABLE b (x int)"])
    ∧ (executeSql env "   ;  ; DROP TABLE x;").2 = [Event.execStmt "DROP TABLE x"] := by
  have hall : ∀ sql, executeSql env sql = (Except.ok (), (sqlStatements sql).map Event.execStmt) :=
    fun sql => execStmts_all_ok env _ fun s _ => hok s
  refine ⟨fun sql => by rw [hall sql]; exact ⟨rfl, rfl⟩, ?_, ?_⟩
  · intro env2 h1
    have hs : sqlStatements "CREATE TABLE a (x int); CREATE TABLE b (x int);" =
        ["CREATE TABLE a (x int)", "CREATE TABLE b (x int)"] := by decide
    rw [executeSql, hs]
    exact execStmts_two env2 "CREATE TABLE a (x int)" "CREATE TABLE b (x int)" h1
  · rw [hall]
    decide

/-- C7 witness. -/
theorem c7_executor_statements_witness :
    (executeSql baseEnv "   ;  ; DROP TABLE x;").2 = [Event.execStmt "DROP TABLE x"] :=
  (c7_executor_statements baseEnv fun _ => rfl).2.2

/-- A directory listing for the locator scenarios: `m1` has a conforming
rollback file after a non-match, `m2` has none, `m3` shows exact-suffix
matching (`rollback.sql.bak` rejected, `foo.rollback.sql` accepted),
`m4` does not exist. -/
def rdLocator : String → Except String (List String) := fun p =>
  if p = "root/m1" then Except.ok ["migration.sql", "001.rollback.sql"]
  else if p = "root/m2" then Except.ok ["migration.sql"]
  else if p = "root/m3" then Except.ok ["rollback.sql.bak", "foo.rollback.sql"]
  else Except.error "ENOENT"

/-- C8: the locator returns the path of the FIRST directory entry whose
name ends in the exact case-sensitive suffix `rollback.sql`; absent when no
entry matches; absent (never raising) when the directory cannot be read;
`foo.rollback.sql` matches while `rollback.sql.bak` does not. -/
theorem c8_locator_suffix_match :
    (∀ (rd : String → Except String (List String)) (name dir e : String),
      rd (pathJoin dir name) = Except.error e → getRollbackFile rd name dir = none)
    ∧ (∀ (rd : String → Except String (List String)) (name dir : String)
        (files : List String), rd (pathJoin dir name) = Except.ok files →
        ((∀ f ∈ files, jsEndsWith f "rollback.sql" = false) →
          getRollbackFile rd name dir = none)
        ∧ (∀ pre f post, files = pre ++ f :: post →
            (∀ g ∈ pre, jsEndsWith g "rollback.sql" = false) →
            jsEndsWith f "rollback.sql" = true →
            getRollbackFile rd name dir = some (pathJoin (pathJoin dir name) f)))
    ∧ getRollbackFile rdLocator "m1" "root" = some "root/m1/001.rollback.sql"
    ∧ getRollbackFile rdLocator "m2" "root" = none
    ∧ getRollbackFile rdLocator "m3" "root" = some "root/m3/foo.rollback.sql"
    ∧ getRollbackFile rdLocator "m4" "root" = none := by
  refine ⟨?_, ?_, by decide, by decide, by decide, by decide⟩
  · intro rd name dir e h
    simp [getRollbackFile, h]
  · intro rd name dir files h
    constructor
    · intro hnone
      have hfind : files.find? (fun f => jsEndsWith f "rollback.sql") = none :=
        List.find?_eq_none.mpr fun x hx => by simp [hnone x hx]
      simp [getRollbackFile, h, hfind]
    · intro pre f post hsplit hpre hf
      have hfind : ∀ pre : List String, (∀ g ∈ pre, jsEndsWith g "rollback.sql" = false) →
          (pre ++ f :: post).find? (fun x => jsEndsWith x "rollback.sql") = some f := by
        intro pre
        induction pre with
        | nil =>
          intro _
          rw [List.nil_append]
          exact List.find?_cons_of_pos post hf
        | cons g gs ih =>
          intro hg
          rw [List.cons_append,
            List.find?_cons_of_neg _ (by simp [hg g (List.mem_cons_self g gs)])]
          exact ih fun x hx => hg x (List.mem_cons_of_mem g hx)
      simp [getRollbackFile, h, hsplit, hfind pre hpre]

/-- C8 witness: the inner read-failure case at the nonexistent directory. -/
theorem c8_locator_suffix_match_witness :
    getRollbackFile rdLocator "m4" "root" = none :=
  (c8_locator_suffix_match).1 rdLocator "m4" "root" "ENOENT" rfl

/-- A migrations root holding two conforming directories and a
non-conforming entry. -/
def envScanner : Env :=
  { baseEnv with
    readdir := fun p =>
      if p = "root" then Except.ok ["20240101000000_a", "20240102000000_b", "readme"]
      else Except.error "ENOENT" }

/-- C9: the scanner returns `[]` on a read failure; otherwise every returned
name comes from the listing and matches `^\d{14}_`, the result is sorted
lexicographically descending and has at most 3 (the code's limit) elements;
on the root with `20240101000000_a`, `20240102000000_b`, `readme` it
returns `[20240102000000_b, 20240101000000_a]` (the claim's expected output
for limit 2, which coincides here). -/
theorem c9_scanner :
    (∀ (env : Env) (dir e : String), env.readdir dir = Except.error e →
      findRecentMigrationDirs env (some dir) = [])
    ∧ (∀ (env : Env) (dir : String) (entries : List String),
        env.readdir dir = Except.ok entries →
        (findRecentMigrationDirs env (some dir)).length ≤ 3
        ∧ (∀ n ∈ findRecentMigrationDirs env (some dir), n ∈ entries ∧ isMigrationId n = true)
        ∧ List.Pairwise (fun a b => strLe b a = true) (findRecentMigrationDirs env (some dir)))
    ∧ findRecentMigrationDirs envScanner (some "root") =
        ["20240102000000_b", "20240101000000_a"] := by
  refine ⟨?_, ?_, by decide⟩
  · intro env dir e h
    simp [findRecentMigrationDirs, h]
  · intro env dir entries h
    have hr : findRecentMigrationDirs env (some dir) =
        ((sortBy strLe (entries.filter isMigrationId)).reverse).take 3 := by
      simp [findRecentMigrationDirs, h]
    refine ⟨?_, ?_, ?_⟩
    · rw [hr]; exact List.length_take_le 3 _
    · intro n hn
      rw [hr] at hn
      have hn2 : n ∈ sortBy strLe (entries.filter isMigrationId) :=
        List.mem_reverse.mp (List.take_subset 3 _ hn)
      have hn3 : n ∈ entries.filter isMigrationId := (mem_sortBy strLe n _).mp hn2
      have := List.mem_filter.mp hn3
      exact ⟨this.1, this.2⟩
    · rw [hr]
      refine List.Pairwise.sublist (List.take_sublist 3 _) ?_
      exact List.pairwise_reverse.mpr (pairwise_sortBy strLe strLe_total strLe_trans _)

/-- C9 witness: the read-failure case at the base environment. -/
theorem c9_scanner_witness :
    findRecentMigrationDirs baseEnv (some "root") = [] :=
  (c9_scanner).1 baseEnv "root" "ENOENT" rfl

/-- Subprocess exits cleanly; history shows `fmStuck`; its rollback script
exists but holds only whitespace and semicolons; the connection would
reject ANY statement, showing none is submitted. -/
def envBlankScript : Env :=
  { baseEnv with
    historyQuery := Except.ok [fmStuck]
    readdir := fun p =>
      if p = "root/20240105000000_add_col" then Except.ok ["rollback.sql"]
      else Except.error "ENOENT"
    readFileContent := fun p =>
      if p = "root/20240105000000_add_col/rollback.sql" then Except.ok "  ; \n ;  "
      else Except.error "ENOENT"
    dbExec := fun _ => Except.error "must not be called" }

/-- C10: a SQL text all of whose `;`-fragments trim to empty yields zero
executed statements and no error; consequently a located rollback script
that is empty or whitespace-only makes the rollback attempt succeed
(`rolledBack: true`) with no statement ever submitted — even on a
connection that would reject every statement. -/
theorem c10_blank_script_rollback_success :
    (∀ (env : Env) (sql : String), (∀ f ∈ jsSplitSemi sql, jsTrim f = "") →
      executeSql env sql = (Except.ok (), []))
    ∧ (∀ (env : Env) (dir out : String) (fm : FailedMigration) (f sql : String),
        env.findMigrationsDirResult = Except.ok dir →
        env.execCommand = Except.ok out →
        checkForFailedMigrations env = some fm →
        getRollbackFile env.readdir fm.migration_name dir = some f →
        env.readFileContent f = Except.ok sql →
        (∀ fr ∈ jsSplitSemi sql, jsTrim fr = "") →
        (migrate env).1.rolledBack = some true
          ∧ (migrate env).1.rollbackError = none
          ∧ ∀ st, Event.execStmt st ∉ (migrate env).2)
    ∧ (migrate envBlankScript).1.rolledBack = some true
    ∧ (migrate envBlankScript).1.rollbackError = none := by
  have hexec : ∀ (env : Env) (sql : String), (∀ f ∈ jsSplitSemi sql, jsTrim f = "") →
      executeSql env sql = (Except.ok (), []) := by
    intro env sql hblank
    simp [executeSql, sqlStatements_blank sql hblank, execStmts]
  refine ⟨hexec, ?_, by decide, by decide⟩
  intro env dir out fm f sql hd hc hf hloc hread hblank
  simp only [migrate, hd, hc, hf, attemptRollback, hloc, hread, hexec env sql hblank]
  refine ⟨by trivial, by trivial, ?_⟩
  intro st hmem
  simp only [List.mem_cons] at hmem
  rcases hmem with h | h | h | h | h
  · cases h
  · cases h
  · cases h
  · cases h
  · simp at h

/-- C10 witness: the blank-fragments hypothesis at the concrete script. -/
theorem c10_blank_script_rollback_success_witness :
    executeSql baseEnv "  ; \n ;  " = (Except.ok (), []) :=
  (c10_blank_script_rollback_success).1 baseEnv "  ; \n ;  " (by decide)

end PrismaMigrator
